import Mathlib

/-!
Shallow embedding of `src/svt.py` (class `SVTAppWindow`): the frame store,
the playback controller, the height-map toggle and the directory-load
logic, together with models of the external collaborators (pyvista meshes,
Qt widgets) restricted to the behavior the program exercises.

Machine floats of the original appear only as mesh data values and file
stems; they are modelled over `Int` (data values) and exact decimal
keys (sort keys), which is faithful for the structural properties
stated below.
-/

namespace SVT

/-- A mesh point. `svt.py` only ever touches the last coordinate of the
point array (`mesh.points[:, -1]`), i.e. `z`. -/
structure Pt where
  x : Int
  y : Int
  z : Int
deriving DecidableEq, Repr

/-- Model of a pyvista mesh handle (spec §6, external mesh collaborator):
a point-coordinate array plus named per-cell and per-point data arrays. -/
structure Mesh where
  points : List Pt
  cellData : List (String × List Int)
  pointData : List (String × List Int)
deriving DecidableEq, Repr

/-- Modelled from the spec (§4.3 and §6): pyvista's
`cell_data_to_point_data` filter, which is external to this repository.
Per the library's documented contract the filter RETURNS A NEW dataset
and does not modify its input; the per-cell-to-per-point value averaging
scheme is delegated to the mesh library by the spec and is modelled here
as transcription of each cell array to a point array of the same name
(input point data is passed through, cell data is not passed). None of
the proved properties depends on the numeric averaging scheme. -/
def cellDataToPointData (m : Mesh) : Mesh :=
  { m with pointData := m.pointData ++ m.cellData, cellData := [] }

/-- `point_data.get_array(name)`: `some` the named array; `none` models
the `KeyError` pyvista raises when no array has that name. -/
def getArray (arrays : List (String × List Int)) (name : String) : Option (List Int) :=
  (arrays.find? (fun a => a.1 = name)).map Prod.snd

/-- `mesh.points[:, -1] = vals` (numpy column assignment, elementwise;
in the modelled uses the lengths agree). -/
def setZColumn (vals : List Int) (m : Mesh) : Mesh :=
  { m with points := (m.points.zip vals).map (fun pv => { pv.1 with z := pv.2 }) }

/-- `mesh.points[:, -1] = 0` (numpy broadcast assignment). -/
def zeroZ (m : Mesh) : Mesh :=
  { m with points := m.points.map (fun p => { p with z := 0 }) }

/-- Model of the `QComboBox` layer selector. After `clear()` the box is
empty (current text `""`); when items are added to an empty box, Qt makes
the first added item current (index 0). -/
structure ComboBox where
  items : List String
  currentIndex : Nat
deriving DecidableEq, Repr

/-- `currentText()` of the combo box model. -/
def ComboBox.currentText (c : ComboBox) : String :=
  c.items.getD c.currentIndex ""

/-- Model of the `QSlider` time slider. Its minimum is 0 throughout the
program (the Qt default, and every `setRange` call uses 0); `maxVal` is
99 initially (Qt default range 0–99). -/
structure Slider where
  maxVal : Nat
  val : Nat
deriving DecidableEq, Repr

/-- Python exception classes that the modelled code can raise. -/
inductive PyError where
  | valueError
  | ioError
  | indexError
  | keyError
deriving DecidableEq, Repr

/-- The mutable state of `SVTAppWindow` that the modelled methods read or
write, plus the on-screen render trace (labels pushed to the plotter,
oldest first). Window-title and button-caption strings are presentation
only and are not modelled. -/
structure AppState where
  playing : Bool
  timerActive : Bool
  v2h : Bool
  meshes : List (String × Mesh)
  meshfiles : List String
  layerSelector : ComboBox
  slider : Slider
  skipFrames : Nat
  statusText : String
  progressValue : Nat
  renders : List String
deriving DecidableEq, Repr

/-- The state built by `__init__` (svt.py lines 16–124): nothing loaded,
not playing, timer created but not started, sentinel entry in the layer
selector, slider at Qt's default range 0–99, frame step spinbox at 1. -/
def initState : AppState :=
  { playing := false
    timerActive := false
    v2h := false
    meshes := []
    meshfiles := []
    layerSelector := { items := ["Select Layer..."], currentIndex := 0 }
    slider := { maxVal := 99, val := 0 }
    skipFrames := 1
    statusText := ""
    progressValue := 0
    renders := [] }

/-- `display(mesh, text)` (svt.py lines 126–134): pushes the current mesh
to the plotter (and to the GIF recorder when enabled); modelled as
appending the frame's label to the render trace. -/
def display (file : String) (s : AppState) : AppState :=
  { s with renders := s.renders ++ [file] }

/-- `displayLocal` (svt.py lines 136–141): early return when nothing is
loaded, otherwise index the frame store with the slider value (an
out-of-range index raises `IndexError`), report the status and render. -/
def displayLocal (s : AppState) : AppState × Option PyError :=
  if s.meshes.isEmpty then (s, none)
  else
    match s.meshes[s.slider.val]? with
    | none => (s, some PyError.indexError)
    | some fm => (display fm.1 { s with statusText := "Viewing " ++ fm.1 }, none)

/-- `QSlider.setValue`: clamp into range; when the value changes, the
`valueChanged` signal fires, which is connected to `displayLocal`
(svt.py line 106). -/
def sliderSetValue (v : Nat) (s : AppState) : AppState × Option PyError :=
  let clamped := min v s.slider.maxVal
  if clamped = s.slider.val then (s, none)
  else displayLocal { s with slider := { s.slider with val := clamped } }

/-- `QSlider.setRange(0, hi)`: when the current value falls outside the
new range Qt clamps it, emitting `valueChanged` (hence `displayLocal`). -/
def sliderSetRange (hi : Nat) (s : AppState) : AppState × Option PyError :=
  let s1 := { s with slider := { s.slider with maxVal := hi } }
  if s.slider.val ≤ hi then (s1, none)
  else displayLocal { s1 with slider := { s1.slider with val := hi } }

/-- The index-advance computation of `playFrame` (svt.py lines 193–195):
`nextVal = value + skip; if nextVal >= len(meshes): nextVal = 0`. -/
def advance (n skip i : Nat) : Nat :=
  if i + skip ≥ n then 0 else i + skip

/-- `playFrame` (svt.py lines 191–196): one playback timer tick — render
the current frame via `displayLocal`, then move the slider to the
advanced index. -/
def playFrame (s : AppState) : AppState × Option PyError :=
  match displayLocal s with
  | (s1, some e) => (s1, some e)
  | (s1, none) => sliderSetValue (advance s1.meshes.length s1.skipFrames s1.slider.val) s1

/-- `playPause` (svt.py lines 198–208): toggle the playing flag; when now
playing, arm the recurring timer and optionally jump to an explicit start
frame (`startFrame = -1` means "keep the current index"); when now
stopped, disarm the timer. -/
def playPause (startFrame : Int) (s : AppState) : AppState × Option PyError :=
  let s := { s with playing := !s.playing }
  if s.playing then
    let s := { s with timerActive := true }
    if startFrame ≠ -1 then sliderSetValue startFrame.toNat s else (s, none)
  else
    ({ s with timerActive := false }, none)

/-- Loop body of `toggleValToHeights` when the height map is being turned
ON (svt.py lines 235–237), acting on the LOCAL loop variable `mesh`:
`mesh = mesh.cell_data_to_point_data()` rebinds `mesh` to the new dataset
returned by the filter, so the two subsequent statements read and mutate
that new dataset, not the mesh stored in `self.meshes`. `none` models the
`KeyError` from `get_array` when the selected layer is absent. -/
def v2hConvertOn (layer : String) (m : Mesh) : Option Mesh :=
  let converted := cellDataToPointData m
  match getArray converted.pointData layer with
  | none => none
  | some vals => some (setZColumn (vals.map (fun v => v * 5)) converted)

/-- The `for idx, (file, mesh) in enumerate(self.meshes)` loop of
`toggleValToHeights` (svt.py lines 231–239). `done` holds the frames
already processed, `todo` the remaining ones; the stored sequence at any
moment is `done ++ todo`. Status and progress are updated first (lines
232–233); then in the ON branch the converted copy is built and discarded
(the stored mesh is untouched), while in the OFF branch the stored mesh's
z column is zeroed in place. -/
def toggleLoop (v2h : Bool) (layer : String) (total idx : Nat)
    (done todo : List (String × Mesh)) (s : AppState) : AppState × Option PyError :=
  match todo with
  | [] => ({ s with meshes := done }, none)
  | (file, mesh) :: rest =>
    let s := { s with statusText := "Converting mesh " ++ file ++ "..."
                      progressValue := 100 * (idx + 1) / total }
    if v2h then
      match v2hConvertOn layer mesh with
      | none => ({ s with meshes := done ++ (file, mesh) :: rest }, some PyError.keyError)
      | some _ => toggleLoop v2h layer total (idx + 1) (done ++ [(file, mesh)]) rest s
    else
      toggleLoop v2h layer total (idx + 1) (done ++ [(file, zeroZ mesh)]) rest s

/-- `toggleValToHeights` (svt.py lines 223–242): early return when
nothing is loaded; otherwise flip `v2h`, run the conversion loop over
every frame, then report "Done!" and redisplay. -/
def toggleValToHeights (s : AppState) : AppState × Option PyError :=
  if s.meshes.isEmpty then (s, none)
  else
    let s := { s with v2h := !s.v2h }
    match toggleLoop s.v2h s.layerSelector.currentText s.meshes.length 0 [] s.meshes s with
    | (s1, some e) => (s1, some e)
    | (s1, none) => displayLocal { s1 with statusText := "Done!" }

/-- Model of `os.path.splitext(name)[0]` (Python standard library,
external): the extension is the suffix starting at the last dot, except
that a name whose characters before that dot are all dots (leading-dot
names such as `.bashrc`) has no extension. -/
def splitextStem (name : String) : String :=
  match (name.toList.reverse.dropWhile (fun c => c ≠ '.')) with
  | [] => name
  | _ :: stemRev =>
    if stemRev.all (fun c => c = '.') then name
    else String.mk stemRev.reverse

/-- The numeric value of a decimal literal, as the exact rational
`num / den` with `den` a power of ten. Only its ordering is used (for the
sort key); on decimal stems of ordinary length this ordering coincides
with the ordering of the Python floats they denote. -/
structure DecKey where
  num : Nat
  den : Nat
deriving DecidableEq, Repr

/-- Strict comparison of two decimal keys: `a.num / a.den < b.num / b.den`. -/
def DecKey.blt (a b : DecKey) : Bool :=
  a.num * b.den < b.num * a.den

/-- The value of a decimal digit character, `none` for a non-digit. -/
def digitVal (c : Char) : Option Nat :=
  if 48 ≤ c.toNat ∧ c.toNat ≤ 57 then some (c.toNat - 48) else none

/-- Accumulator pass of `parseDigits`. -/
def parseDigitsAux (acc : Nat) : List Char → Option Nat
  | [] => some acc
  | c :: cs =>
    match digitVal c with
    | none => none
    | some d => parseDigitsAux (acc * 10 + d) cs

/-- A non-empty all-digit string as a number, `none` otherwise. -/
def parseDigits (cs : List Char) : Option Nat :=
  match cs with
  | [] => none
  | _ => parseDigitsAux 0 cs

/-- Splits a character list at every dot. -/
def splitOnDotAux (cur : List Char) : List Char → List (List Char)
  | [] => [cur.reverse]
  | c :: cs =>
    if c = '.' then cur.reverse :: splitOnDotAux [] cs
    else splitOnDotAux (c :: cur) cs

/-- Modelled from the spec (§7, load errors): the Python builtin
`float(str)` (external), restricted to the stems this program is fed:
unsigned decimal literals `digits` or `digits.digits` parse to their
value, everything else models a raised `ValueError` (`none`). -/
def parsePyFloat (str : String) : Option DecKey :=
  match splitOnDotAux [] str.toList with
  | [d] => (parseDigits d).map (fun n => ⟨n, 1⟩)
  | [d, f] =>
    match parseDigits d, parseDigits f with
    | some a, some b => some ⟨a * 10 ^ f.length + b, 10 ^ f.length⟩
    | _, _ => none
  | _ => none

/-- One directory entry: the filename paired with the outcome of
`pv.read` on it (`none` models a raised read/parse error). -/
abbrev DirEntry := String × Option Mesh

/-- The key computation of `sorted(..., key=lambda e: float(os.path.splitext(e)[0]))`
(svt.py line 161): CPython computes every key before comparing any, so a
single unparsable stem raises `ValueError` before the sort proper and
before any mesh file is opened. -/
def computeKeys : List DirEntry → Option (List (DecKey × DirEntry))
  | [] => some []
  | e :: rest =>
    match parsePyFloat (splitextStem e.1), computeKeys rest with
    | some k, some keyed => some ((k, e) :: keyed)
    | _, _ => none

/-- Stable insertion of one keyed entry (equal keys keep list order). -/
def insertKeyed (x : DecKey × DirEntry) : List (DecKey × DirEntry) → List (DecKey × DirEntry)
  | [] => [x]
  | y :: ys => if DecKey.blt x.1 y.1 then x :: y :: ys else y :: insertKeyed x ys

/-- Stable ascending sort by key — extensionally the behavior of Python's
`sorted` (a stable ascending sort) once the keys are computed. -/
def sortKeyed : List (DecKey × DirEntry) → List (DecKey × DirEntry)
  | [] => []
  | x :: xs => insertKeyed x (sortKeyed xs)

/-- `sorted(os.listdir(directory), key=lambda e: float(os.path.splitext(e)[0]))`
(svt.py line 161): `none` models the `ValueError` escaping the sort. -/
def sortEntries (entries : List DirEntry) : Option (List DirEntry) :=
  match computeKeys entries with
  | none => none
  | some keyed => some ((sortKeyed keyed).map Prod.snd)

/-- The mesh-loading loop of `openLoadDir` (svt.py lines 162–166):
`pv.read` each file in sorted order, append `(file, mesh)` to
`self.meshes`, then report status and progress. Returns the state, the
list of files handed to `pv.read` (in order), and the escaped exception
if a read fails. -/
def loadLoop (total idx : Nat) (todo : List DirEntry) (s : AppState) :
    AppState × List String × Option PyError :=
  match todo with
  | [] => (s, [], none)
  | (file, res) :: rest =>
    match res with
    | none => (s, [file], some PyError.ioError)
    | some mesh =>
      let s := { s with meshes := s.meshes ++ [(file, mesh)]
                        statusText := "Loading " ++ file ++ "..."
                        progressValue := 100 * (idx + 1) / total }
      match loadLoop total (idx + 1) rest s with
      | (s1, opened, e) => (s1, file :: opened, e)

/-- Result of a directory load: the state after the call, the exception
that escaped `openLoadDir` (if any — the method has no handler), and the
files that were handed to `pv.read`, in order. -/
structure LoadResult where
  state : AppState
  err : Option PyError
  opened : List String
deriving DecidableEq, Repr

/-- Slider reset and initial display at the end of a successful load
(svt.py lines 175–181): `setRange(0, len(meshfiles) - 1)`, `setValue(0)`
(each may redisplay through the `valueChanged` signal), then an explicit
`displayLocal` when the store is non-empty. -/
def finishDisplay (opened : List String) (s : AppState) : LoadResult :=
  match sliderSetRange (s.meshfiles.length - 1) s with
  | (s1, some e) => ⟨s1, some e, opened⟩
  | (s1, none) =>
    match sliderSetValue 0 s1 with
    | (s2, some e) => ⟨s2, some e, opened⟩
    | (s2, none) =>
      if s2.meshes.isEmpty then ⟨s2, none, opened⟩
      else
        match displayLocal s2 with
        | (s3, e) => ⟨s3, e, opened⟩

/-- Tail of `openLoadDir` after the loading loop (svt.py lines 168–181):
read the layer names off the first mesh (`self.meshes[0]` raises
`IndexError` when the directory was empty), clear and repopulate the
layer selector (Qt makes the first inserted item current), then reset
the slider and display. -/
def finishLoad (opened : List String) (s : AppState) : LoadResult :=
  match s.meshes with
  | [] => ⟨s, some PyError.indexError, opened⟩
  | (_, demomesh) :: _ =>
    finishDisplay opened
      { s with layerSelector :=
        { items := demomesh.cellData.map Prod.fst, currentIndex := 0 } }

/-- Body of `openLoadDir` from the store reset on (svt.py lines
158–181): clear `self.meshes`, sort the listing by numeric stem (the
`ValueError` from a bad stem escapes with the store already cleared and
`meshfiles` untouched), record the sorted filenames, read every file in
sorted order, then finish. -/
def loadPhase (entries : List DirEntry) (s : AppState) : LoadResult :=
  match sortEntries entries with
  | none => ⟨{ s with meshes := [] }, some PyError.valueError, []⟩
  | some sortedEntries =>
    match loadLoop sortedEntries.length 0 sortedEntries
        { s with meshes := [], meshfiles := sortedEntries.map Prod.fst } with
    | (s1, opened, some e) => ⟨s1, some e, opened⟩
    | (s1, opened, none) => finishLoad opened s1

/-- `openLoadDir` (svt.py lines 143–181), from the point where the
directory dialog was accepted with `entries` as the chosen directory's
listing (`os.listdir` order): turn the height map off if it is on (line
145), then run the load phase. -/
def openLoadDir (entries : List DirEntry) (s : AppState) : LoadResult :=
  match (if s.v2h then toggleValToHeights s else (s, none)) with
  | (s0, some e) => ⟨s0, some e, []⟩
  | (s0, none) => loadPhase entries s0

/-! Concrete sample data used by the closed theorems below. -/

/-- A sample mesh: one point at height 7, one cell with field `rho = 3`. -/
def meshA : Mesh :=
  { points := [⟨0, 0, 7⟩], cellData := [("rho", [3])], pointData := [] }

/-- A second sample mesh: one point at height 0, `rho = 1`. -/
def meshB : Mesh :=
  { points := [⟨0, 0, 0⟩], cellData := [("rho", [1])], pointData := [] }

/-- A state with one loaded frame `0.msh` (mesh `meshA`), layer `rho`
selected, slider ranged over the single frame. -/
def loadedState : AppState :=
  { initState with
      meshes := [("0.msh", meshA)]
      meshfiles := ["0.msh"]
      layerSelector := { items := ["rho"], currentIndex := 0 }
      slider := { maxVal := 0, val := 0 } }

/-! Helper lemmas: the rendering and slider operations never touch the
frame store, the height-map flag, the layer selector or the playback
flags; the toggle loop's effect on the stored meshes. -/

theorem displayLocal_meshes (s : AppState) : (displayLocal s).1.meshes = s.meshes := by
  unfold displayLocal display
  split
  · rfl
  · split <;> rfl

theorem displayLocal_v2h (s : AppState) : (displayLocal s).1.v2h = s.v2h := by
  unfold displayLocal display
  split
  · rfl
  · split <;> rfl

theorem displayLocal_layerSelector (s : AppState) :
    (displayLocal s).1.layerSelector = s.layerSelector := by
  unfold displayLocal display
  split
  · rfl
  · split <;> rfl

theorem displayLocal_slider (s : AppState) : (displayLocal s).1.slider = s.slider := by
  unfold displayLocal display
  split
  · rfl
  · split <;> rfl

theorem sliderSetValue_meshes (v : Nat) (s : AppState) :
    (sliderSetValue v s).1.meshes = s.meshes := by
  simp only [sliderSetValue]
  split
  · rfl
  · rw [displayLocal_meshes]

theorem sliderSetValue_layerSelector (v : Nat) (s : AppState) :
    (sliderSetValue v s).1.layerSelector = s.layerSelector := by
  simp only [sliderSetValue]
  split
  · rfl
  · rw [displayLocal_layerSelector]

theorem sliderSetRange_meshes (hi : Nat) (s : AppState) :
    (sliderSetRange hi s).1.meshes = s.meshes := by
  simp only [sliderSetRange]
  split
  · rfl
  · rw [displayLocal_meshes]

theorem sliderSetRange_layerSelector (hi : Nat) (s : AppState) :
    (sliderSetRange hi s).1.layerSelector = s.layerSelector := by
  simp only [sliderSetRange]
  split
  · rfl
  · rw [displayLocal_layerSelector]

/-- When the height map is being turned ON, a successful pass of the
conversion loop leaves the stored frame sequence exactly as it was: every
iteration mutates only the discarded local copy. -/
theorem toggleLoop_on_meshes (layer : String) (total : Nat) (todo : List (String × Mesh)) :
    ∀ (idx : Nat) (done : List (String × Mesh)) (s : AppState),
      (toggleLoop true layer total idx done todo s).2 = none →
      (toggleLoop true layer total idx done todo s).1.meshes = done ++ todo := by
  induction todo with
  | nil =>
    intro idx done s _
    simp [toggleLoop]
  | cons fm rest ih =>
    intro idx done s h
    obtain ⟨file, mesh⟩ := fm
    rw [toggleLoop] at h ⊢
    cases hconv : v2hConvertOn layer mesh with
    | none => simp [hconv] at h
    | some m =>
      simp only [hconv, if_true, reduceIte] at h ⊢
      rw [ih _ _ _ h]
      simp

/-- The toggle loop never changes the `v2h` flag. -/
theorem toggleLoop_v2h (v2h : Bool) (layer : String) (total : Nat)
    (todo : List (String × Mesh)) :
    ∀ (idx : Nat) (done : List (String × Mesh)) (s : AppState),
      (toggleLoop v2h layer total idx done todo s).1.v2h = s.v2h := by
  induction todo with
  | nil =>
    intro idx done s
    simp [toggleLoop]
  | cons fm rest ih =>
    intro idx done s
    obtain ⟨file, mesh⟩ := fm
    rw [toggleLoop]
    cases v2h with
    | false => simpa using ih _ _ _
    | true =>
      cases hconv : v2hConvertOn layer mesh with
      | none => simp [hconv]
      | some m => simpa [hconv] using ih _ _ _

/-- When the height map is being turned OFF, the conversion loop always
succeeds and zeroes the z column of every stored mesh in place. -/
theorem toggleLoop_off_spec (layer : String) (total : Nat) (todo : List (String × Mesh)) :
    ∀ (idx : Nat) (done : List (String × Mesh)) (s : AppState),
      (toggleLoop false layer total idx done todo s).2 = none ∧
      (toggleLoop false layer total idx done todo s).1.meshes
        = done ++ todo.map (fun fm => (fm.1, zeroZ fm.2)) := by
  induction todo with
  | nil =>
    intro idx done s
    simp [toggleLoop]
  | cons fm rest ih =>
    intro idx done s
    obtain ⟨file, mesh⟩ := fm
    rw [toggleLoop]
    simp only [Bool.false_eq_true, reduceIte, List.map_cons]
    obtain ⟨h1, h2⟩ := ih (idx + 1) (done ++ [(file, zeroZ mesh)]) _
    refine ⟨h1, ?_⟩
    rw [h2]
    simp

/-- Turning the height map ON (from the OFF state) succeeds only without
touching the stored frame sequence, and sets the flag. -/
theorem toggleValToHeights_on (s : AppState) (hne : s.meshes ≠ []) (hv : s.v2h = false)
    (hok : (toggleValToHeights s).2 = none) :
    (toggleValToHeights s).1.meshes = s.meshes ∧ (toggleValToHeights s).1.v2h = true := by
  unfold toggleValToHeights at hok ⊢
  simp only [List.isEmpty_iff, hne, if_false, reduceIte, hv] at hok ⊢
  rcases hloop : toggleLoop true (s.layerSelector.currentText) s.meshes.length 0 [] s.meshes
      { s with v2h := true } with ⟨s1, e1⟩
  simp only [Bool.not_false] at hok ⊢
  rw [hloop] at hok ⊢
  cases e1 with
  | some e => simp at hok
  | none =>
    have hm : s1.meshes = s.meshes := by
      have := toggleLoop_on_meshes (s.layerSelector.currentText) s.meshes.length s.meshes 0 []
        { s with v2h := true } (by rw [hloop])
      rw [hloop] at this
      simpa using this
    have hv2 : s1.v2h = true := by
      have := toggleLoop_v2h true (s.layerSelector.currentText) s.meshes.length s.meshes 0 []
        { s with v2h := true }
      rw [hloop] at this
      simpa using this
    constructor
    · rw [displayLocal_meshes]; exact hm
    · rw [displayLocal_v2h]; exact hv2

/-- Turning the height map OFF (from the ON state) runs the zeroing loop
to completion over every stored mesh, zeroing each z column in place, and
clears the flag (the final redisplay may still raise if the slider is out
of range, but the meshes are already mutated by then). -/
theorem toggleValToHeights_off (s : AppState) (hne : s.meshes ≠ []) (hv : s.v2h = true) :
    (toggleValToHeights s).1.meshes = s.meshes.map (fun fm => (fm.1, zeroZ fm.2)) ∧
    (toggleValToHeights s).1.v2h = false := by
  unfold toggleValToHeights
  simp only [List.isEmpty_iff, hne, reduceIte, hv, Bool.not_true]
  obtain ⟨h1, h2⟩ := toggleLoop_off_spec (s.layerSelector.currentText) s.meshes.length
    s.meshes 0 [] { s with v2h := false }
  have hv2 := toggleLoop_v2h false (s.layerSelector.currentText) s.meshes.length s.meshes 0 []
    { s with v2h := false }
  rcases hloop : toggleLoop false (s.layerSelector.currentText) s.meshes.length 0 [] s.meshes
      { s with v2h := false } with ⟨s1, e1⟩
  rw [hloop] at h1 h2 hv2
  cases e1 with
  | some e => exact absurd h1 (by simp)
  | none =>
    refine ⟨?_, ?_⟩
    · rw [displayLocal_meshes]
      simpa using h2
    · rw [displayLocal_v2h]
      simpa using hv2

/-- A state whose frame sequence is empty while the slider sits at index
2 — reachable by loading a directory, moving the slider, and then
attempting a load that fails (which leaves `meshes = []` with the slider
untouched). -/
def emptyAtIndexTwo : AppState := { initState with slider := { maxVal := 99, val := 2 } }

/-- C1: the claim says a failing directory load leaves the previously
loaded frame sequence untouched. Evaluating the code at a failing input:
loading `1.msh` (readable) then `2.msh` (unreadable) over the state that
holds the prior sequence `[0.msh]` aborts with `IOError`, yet the stored
sequence is now the partially built `[1.msh]`, not the prior one —
`self.meshes` is cleared before the loop and filled incrementally. -/
theorem load_failure_partially_replaces_sequence :
    (openLoadDir [("1.msh", some meshB), ("2.msh", none)] loadedState).err
      = some PyError.ioError ∧
    (openLoadDir [("1.msh", some meshB), ("2.msh", none)] loadedState).state.meshes
      = [("1.msh", meshB)] ∧
    (openLoadDir [("1.msh", some meshB), ("2.msh", none)] loadedState).state.meshes
      ≠ loadedState.meshes := by decide

/-- C2: the claim says enabling the height map overwrites every stored
point's z with `field value * 5`. Evaluating the code at a concrete
input: one loaded frame with point height 7 and cell field `rho = 3`,
layer `rho` selected; toggling the height map ON succeeds and flips
`v2h`, yet the stored mesh is completely unchanged (z stays 7, not
`3 * 5 = 15`), because line 235 rebinds the loop variable to the new
dataset returned by `cell_data_to_point_data` and lines 236–237 mutate
that copy. -/
theorem heightmap_on_leaves_stored_mesh_unchanged :
    (toggleValToHeights loadedState).2 = none ∧
    (toggleValToHeights loadedState).1.v2h = true ∧
    (toggleValToHeights loadedState).1.meshes = loadedState.meshes ∧
    meshA.points.map Pt.z = [7] ∧ (7 : Int) ≠ 3 * 5 := by decide

/-- C3: the claim says every reload forces the playback machine to
Stopped. Evaluating the code: starting playback (playing flag set, timer
armed) and then performing a successful directory load leaves the
playing flag true and the timer armed — `openLoadDir` never touches
`self.playing` or the timer. -/
theorem reload_does_not_stop_playback :
    (playPause (-1) loadedState).1.playing = true ∧
    (playPause (-1) loadedState).1.timerActive = true ∧
    (openLoadDir [("1.msh", some meshB)] (playPause (-1) loadedState).1).err = none ∧
    (openLoadDir [("1.msh", some meshB)] (playPause (-1) loadedState).1).state.playing
      = true ∧
    (openLoadDir [("1.msh", some meshB)] (playPause (-1) loadedState).1).state.timerActive
      = true := by decide

/-- C6: the claim says load errors are reported via the status text and
no exception escapes. Evaluating the code at a directory whose single
entry has a non-numeric stem: the `ValueError` raised inside `sorted`
escapes `openLoadDir` (the method body has no exception handler at all)
and the status text is left exactly as it was — no error is ever
reported there. -/
theorem load_error_escapes_unreported :
    (openLoadDir [("abc.msh", some meshB)] initState).err = some PyError.valueError ∧
    (openLoadDir [("abc.msh", some meshB)] initState).state.statusText
      = initState.statusText := by decide

/-- C4 counterexample: with sequence length 5 and step 3, starting at
index 0, the second advance lands on index 0, while the claimed visit
sequence `0, s, 2s, ... mod N` demands `2 * 3 % 5 = 1` — the code wraps
to 0, it does not reduce modulo N. -/
theorem advance_not_modular_counterexample :
    (advance 5 3)^[2] 0 = 0 ∧ 2 * 3 % 5 = 1 := by decide

/-- C7 counterexample: after a successful load of a directory whose
first mesh exposes the cell field `rho`, the layer selector's current
text is `rho` — a real field name, not the sentinel `Select Layer...`;
the load clears the box and repopulates it with real field names only,
and Qt makes the first inserted item current. -/
theorem selector_after_load_not_sentinel :
    (openLoadDir [("1.msh", some meshA)] initState).err = none ∧
    (openLoadDir [("1.msh", some meshA)] initState).state.layerSelector.currentText
      = "rho" ∧
    "rho" ≠ "Select Layer..." := by decide

/-- C8 counterexample: a tick on a state with an empty frame sequence
and the slider at index 2 raises nothing and renders nothing, but it is
not a no-op: `playFrame` still runs the wrap branch and moves the slider
to 0, changing the current frame index. -/
theorem empty_tick_resets_index :
    emptyAtIndexTwo.meshes = [] ∧ emptyAtIndexTwo.slider.val = 2 ∧
    (playFrame emptyAtIndexTwo).2 = none ∧
    (playFrame emptyAtIndexTwo).1.slider.val = 0 := by decide

/-- C9: toggling the height map on and then off leaves every point of
every stored frame's mesh with z-coordinate exactly 0, whatever the
original z-values — the OFF pass executes `mesh.points[:, -1] = 0` on
each stored mesh (an explicit lossy reset, not a restore). Hypotheses:
a loaded sequence, height map currently off, and the ON pass completes
(the selected field resolves on every frame). -/
theorem heightmap_on_off_zeroes_heights (s : AppState)
    (hne : s.meshes ≠ []) (hv : s.v2h = false)
    (hok : (toggleValToHeights s).2 = none) :
    ∀ fm ∈ (toggleValToHeights (toggleValToHeights s).1).1.meshes,
      ∀ p ∈ fm.2.points, p.z = 0 := by
  obtain ⟨hm1, hv1⟩ := toggleValToHeights_on s hne hv hok
  have hne1 : (toggleValToHeights s).1.meshes ≠ [] := by rw [hm1]; exact hne
  obtain ⟨hm2, _⟩ := toggleValToHeights_off (toggleValToHeights s).1 hne1 hv1
  rw [hm2]
  intro fm hfm p hp
  obtain ⟨fm0, _, rfl⟩ := List.mem_map.mp hfm
  simp only [zeroZ, List.mem_map] at hp
  obtain ⟨p0, _, rfl⟩ := hp
  rfl

/-- C9 witness: the hypotheses of `heightmap_on_off_zeroes_heights` hold
at the concrete loaded state (one frame, point height 7, field `rho`
selected), and its conclusion follows by applying the theorem there. -/
theorem heightmap_on_off_zeroes_heights_witness :
    (loadedState.meshes ≠ [] ∧ loadedState.v2h = false ∧
      (toggleValToHeights loadedState).2 = none) ∧
    ∀ fm ∈ (toggleValToHeights (toggleValToHeights loadedState).1).1.meshes,
      ∀ p ∈ fm.2.points, p.z = 0 :=
  ⟨⟨by decide, by decide, by decide⟩,
    heightmap_on_off_zeroes_heights loadedState (by decide) (by decide) (by decide)⟩

/-- C8 amended: when the frame sequence is empty, a timer tick renders
nothing and raises no error, and every piece of state is unchanged
except the frame index, which is set to 0 by the wrap branch (any
incremented index reaches the length 0) — so the tick is a true no-op
only when the index is already 0. -/
theorem playFrame_empty_resets_index_only (s : AppState) (h : s.meshes = []) :
    playFrame s = ({ s with slider := { s.slider with val := 0 } }, none) := by
  have h1 : displayLocal s = (s, none) := by simp [displayLocal, h]
  have h2 : advance s.meshes.length s.skipFrames s.slider.val = 0 := by
    simp [advance, h]
  unfold playFrame
  rw [h1]
  simp only
  rw [h2]
  simp only [sliderSetValue, Nat.zero_min]
  by_cases h0 : s.slider.val = 0
  · simp only [h0, reduceIte]
    rw [← h0]
  · rw [if_neg (by omega)]
    simp [displayLocal, h]

/-- C8 amended witness: at the concrete empty-sequence state with the
slider at index 2, the tick returns that state with the index reset to 0
and no error. -/
theorem playFrame_empty_resets_index_only_witness :
    emptyAtIndexTwo.meshes = [] ∧
    playFrame emptyAtIndexTwo
      = ({ emptyAtIndexTwo with
            slider := { emptyAtIndexTwo.slider with val := 0 } }, none) :=
  ⟨rfl, playFrame_empty_resets_index_only emptyAtIndexTwo rfl⟩

/-- Fuel-indexed reachability of index 0 under repeated advances: from
any in-range index, some positive number of advances lands on 0. -/
theorem advance_reaches_zero_fuel (n skip : Nat) (hskip : 1 ≤ skip) :
    ∀ (m i : Nat), i < n → n ≤ i + m →
      ∃ k, 1 ≤ k ∧ (advance n skip)^[k] i = 0 := by
  intro m
  induction m with
  | zero => intro i hi hm; omega
  | succ m ih =>
    intro i hi hm
    by_cases hc : n ≤ i + skip
    · refine ⟨1, le_refl 1, ?_⟩
      simp [advance, hc]
    · obtain ⟨k, hk1, hk⟩ := ih (i + skip) (by omega) (by omega)
      refine ⟨k + 1, by omega, ?_⟩
      rw [Function.iterate_succ_apply]
      have ha : advance n skip i = i + skip := by simp [advance]; omega
      rw [ha]
      exact hk

/-- C4 amended: for every sequence length `N ≥ 1`, step `s ≥ 1` and
valid start index, the advance (i) never produces an index `< 0` or
`≥ N`, (ii) eventually returns to index 0, and (iii) starting from 0
visits `0, s, 2s, ...` for as long as `k·s < N` — the first increment
that would reach or exceed `N` wraps to 0 (clamp-and-wrap), it is not
reduced modulo `N`. -/
theorem advance_clamp_wrap_cycle (n skip : Nat) (hn : 1 ≤ n) (hskip : 1 ≤ skip) :
    (∀ i, i < n → advance n skip i < n) ∧
    (∀ i, i < n → ∃ k, 1 ≤ k ∧ (advance n skip)^[k] i = 0) ∧
    (∀ k, k * skip < n → (advance n skip)^[k] 0 = k * skip) := by
  refine ⟨?_, ?_, ?_⟩
  · intro i hi
    unfold advance
    split
    · omega
    · omega
  · intro i hi
    exact advance_reaches_zero_fuel n skip hskip n i hi (by omega)
  · intro k
    induction k with
    | zero => intro h; simp
    | succ k ih =>
      intro h
      have hexp : (k + 1) * skip = k * skip + skip := by ring
      have hexp2 : Nat.succ k * skip = k * skip + skip := by rw [Nat.succ_mul]
      have hks : k * skip < n := by omega
      rw [Function.iterate_succ_apply', ih hks]
      have hlt : ¬ (n ≤ k * skip + skip) := by omega
      unfold advance
      rw [if_neg hlt]
      omega

/-- C4 amended witness: instantiating the cycle theorem at `N = 5`,
`s = 3` (the counterexample's parameters, where the claimed modular visit
sequence fails but the clamp-and-wrap one holds). -/
theorem advance_clamp_wrap_cycle_witness :
    (1 ≤ 5 ∧ 1 ≤ 3) ∧
    ((∀ i, i < 5 → advance 5 3 i < 5) ∧
     (∀ i, i < 5 → ∃ k, 1 ≤ k ∧ (advance 5 3)^[k] i = 0) ∧
     (∀ k, k * 3 < 5 → (advance 5 3)^[k] 0 = k * 3)) :=
  ⟨⟨by decide, by decide⟩, advance_clamp_wrap_cycle 5 3 (by decide) (by decide)⟩

/-- On a non-empty store with the slider in range, `displayLocal` cannot
raise: it reports "Viewing <file>" and appends the current frame's label
to the render trace, and changes nothing else. -/
theorem displayLocal_renders (s : AppState) (hne : s.meshes ≠ [])
    (hval : s.slider.val < s.meshes.length) :
    displayLocal s
      = ({ s with
            statusText := "Viewing " ++ (s.meshes[s.slider.val]).1,
            renders := s.renders ++ [(s.meshes[s.slider.val]).1] }, none) := by
  unfold displayLocal display
  rw [List.getElem?_eq_getElem hval]
  simp [List.isEmpty_iff, hne]

/-- C5: on a non-empty sequence (with the slider invariant established by
every load: value in range, maximum = length - 1), a single timer tick
raises nothing, renders the current frame first, and moves the slider to
`advance` of the current index — i.e. index + step, except 0 whenever the
incremented index would reach or exceed the sequence length. -/
theorem playFrame_renders_then_advances (s : AppState)
    (hne : s.meshes ≠ [])
    (hval : s.slider.val < s.meshes.length)
    (hhi : s.slider.maxVal = s.meshes.length - 1) :
    (playFrame s).2 = none ∧
    (playFrame s).1.slider.val = advance s.meshes.length s.skipFrames s.slider.val ∧
    ∃ rest, (playFrame s).1.renders
      = s.renders ++ (s.meshes[s.slider.val]).1 :: rest := by
  have hlen : 0 < s.meshes.length := List.length_pos.mpr hne
  have hA : advance s.meshes.length s.skipFrames s.slider.val < s.meshes.length := by
    unfold advance
    split
    · exact hlen
    · omega
  have hd := displayLocal_renders s hne hval
  have hclamp : min (advance s.meshes.length s.skipFrames s.slider.val) s.slider.maxVal
      = advance s.meshes.length s.skipFrames s.slider.val := by
    apply Nat.min_eq_left
    omega
  unfold playFrame
  rw [hd]
  simp only [sliderSetValue, hclamp]
  by_cases heq : advance s.meshes.length s.skipFrames s.slider.val = s.slider.val
  · rw [if_pos heq]
    exact ⟨rfl, heq.symm, [], by simp⟩
  · rw [if_neg heq]
    rw [displayLocal_renders
      { s with
          slider := { maxVal := s.slider.maxVal,
                      val := advance s.meshes.length s.skipFrames s.slider.val },
          statusText := "Viewing " ++ (s.meshes[s.slider.val]).1,
          renders := s.renders ++ [(s.meshes[s.slider.val]).1] } hne hA]
    refine ⟨rfl, rfl, ?_⟩
    refine ⟨[(s.meshes[advance s.meshes.length s.skipFrames s.slider.val]).1], ?_⟩
    simp

/-- A state with two loaded frames, slider invariant in place. -/
def twoFrameState : AppState :=
  { initState with
      meshes := [("0.msh", meshA), ("1.msh", meshB)]
      meshfiles := ["0.msh", "1.msh"]
      layerSelector := { items := ["rho"], currentIndex := 0 }
      slider := { maxVal := 1, val := 0 } }

/-- C5 witness: the tick theorem applied to the concrete two-frame state
at index 0 with step 1. -/
theorem playFrame_renders_then_advances_witness :
    (twoFrameState.meshes ≠ [] ∧
      twoFrameState.slider.val < twoFrameState.meshes.length ∧
      twoFrameState.slider.maxVal = twoFrameState.meshes.length - 1) ∧
    ((playFrame twoFrameState).2 = none ∧
      (playFrame twoFrameState).1.slider.val
        = advance twoFrameState.meshes.length twoFrameState.skipFrames
            twoFrameState.slider.val ∧
      ∃ rest, (playFrame twoFrameState).1.renders
        = twoFrameState.renders ++ (twoFrameState.meshes[twoFrameState.slider.val]).1 :: rest) :=
  ⟨⟨by decide, by decide, by decide⟩,
    playFrame_renders_then_advances twoFrameState (by decide) (by decide) (by decide)⟩

/-- The slider reset and redisplay at the end of a load never touch the
layer selector or the frame store. -/
theorem finishDisplay_preserves (opened : List String) (s : AppState) :
    (finishDisplay opened s).state.layerSelector = s.layerSelector ∧
    (finishDisplay opened s).state.meshes = s.meshes := by
  unfold finishDisplay
  have p1l := sliderSetRange_layerSelector (s.meshfiles.length - 1) s
  have p1m := sliderSetRange_meshes (s.meshfiles.length - 1) s
  rcases h1 : sliderSetRange (s.meshfiles.length - 1) s with ⟨s1, e1⟩
  rw [h1] at p1l p1m
  cases e1 with
  | some e => exact ⟨p1l, p1m⟩
  | none =>
    dsimp only
    have p2l := sliderSetValue_layerSelector 0 s1
    have p2m := sliderSetValue_meshes 0 s1
    rcases h2 : sliderSetValue 0 s1 with ⟨s2, e2⟩
    rw [h2] at p2l p2m
    cases e2 with
    | some e => exact ⟨p2l.trans p1l, p2m.trans p1m⟩
    | none =>
      dsimp only
      by_cases hemp : s2.meshes.isEmpty
      · rw [if_pos hemp]
        exact ⟨p2l.trans p1l, p2m.trans p1m⟩
      · rw [if_neg hemp]
        have p3l := displayLocal_layerSelector s2
        have p3m := displayLocal_meshes s2
        rcases h3 : displayLocal s2 with ⟨s3, e3⟩
        rw [h3] at p3l p3m
        exact ⟨p3l.trans (p2l.trans p1l), p3m.trans (p2m.trans p1m)⟩

/-- When the finishing step of a load does not raise `IndexError`, the
store starts with a first frame whose cell-data field names are exactly
the repopulated selector items, with the first one current. -/
theorem finishLoad_success (opened : List String) (s : AppState)
    (h : (finishLoad opened s).err = none) :
    (finishLoad opened s).state.layerSelector.currentIndex = 0 ∧
    ∃ file demomesh rest,
      (finishLoad opened s).state.meshes = (file, demomesh) :: rest ∧
      (finishLoad opened s).state.layerSelector.items = demomesh.cellData.map Prod.fst := by
  unfold finishLoad at h ⊢
  rcases hm : s.meshes with _ | ⟨⟨file, demomesh⟩, rest⟩
  · rw [hm] at h
    simp at h
  · rw [hm] at h
    dsimp only at h ⊢
    obtain ⟨hl, hms⟩ := finishDisplay_preserves opened
      { s with
          meshes := (file, demomesh) :: rest,
          layerSelector := { items := demomesh.cellData.map Prod.fst, currentIndex := 0 } }
    refine ⟨?_, file, demomesh, rest, ?_, ?_⟩
    · rw [hl]
    · rw [hms]
    · rw [hl]

/-- C7 amended: the sentinel `Select Layer...` is only the initial,
pre-load content of the selector. Every load that completes without an
escaping exception clears the selector and repopulates it with exactly
the first loaded mesh's cell-data field names, and the first of those
(not the sentinel, which is never re-added) becomes the current
selection. -/
theorem load_repopulates_selector_first_field (entries : List DirEntry) (s : AppState)
    (h : (openLoadDir entries s).err = none) :
    initState.layerSelector.currentText = "Select Layer..." ∧
    (openLoadDir entries s).state.layerSelector.currentIndex = 0 ∧
    ∃ file demomesh rest,
      (openLoadDir entries s).state.meshes = (file, demomesh) :: rest ∧
      (openLoadDir entries s).state.layerSelector.items
        = demomesh.cellData.map Prod.fst := by
  refine ⟨rfl, ?_⟩
  unfold openLoadDir at h ⊢
  rcases h0 : (if s.v2h then toggleValToHeights s else (s, none)) with ⟨s0, e0⟩
  rw [h0] at h
  cases e0 with
  | some e => simp at h
  | none =>
    dsimp only at h ⊢
    unfold loadPhase at h ⊢
    rcases h1 : sortEntries entries with _ | sorted
    · rw [h1] at h
      simp at h
    · rw [h1] at h
      dsimp only at h ⊢
      rcases h2 : loadLoop sorted.length 0 sorted
          { s0 with meshes := [], meshfiles := sorted.map Prod.fst } with ⟨s2, opened, e2⟩
      rw [h2] at h
      cases e2 with
      | some e => simp at h
      | none =>
        dsimp only at h ⊢
        exact finishLoad_success opened s2 h

/-- C7 amended witness: the selector theorem applied to a successful
concrete load of one mesh exposing the single cell field `rho`. -/
theorem load_repopulates_selector_first_field_witness :
    (openLoadDir [("1.msh", some meshA)] initState).err = none ∧
    (initState.layerSelector.currentText = "Select Layer..." ∧
     (openLoadDir [("1.msh", some meshA)] initState).state.layerSelector.currentIndex = 0 ∧
     ∃ file demomesh rest,
       (openLoadDir [("1.msh", some meshA)] initState).state.meshes
         = (file, demomesh) :: rest ∧
       (openLoadDir [("1.msh", some meshA)] initState).state.layerSelector.items
         = demomesh.cellData.map Prod.fst) :=
  ⟨by decide,
    load_repopulates_selector_first_field [("1.msh", some meshA)] initState (by decide)⟩

/-- One unparsable stem poisons the whole decorate pass of `sorted`. -/
theorem computeKeys_eq_none {e : DirEntry} {l : List DirEntry}
    (he : e ∈ l) (hbad : parsePyFloat (splitextStem e.1) = none) :
    computeKeys l = none := by
  induction l with
  | nil => cases he
  | cons a rest ih =>
    rcases List.mem_cons.mp he with rfl | hmem
    · simp [computeKeys, hbad]
    · simp only [computeKeys, ih hmem]
      cases hp : parsePyFloat (splitextStem a.1) <;> rfl

/-- C10: the directory listing is sorted by the numeric value of each
filename stem (so `1.msh`, `2.msh`, `10.msh` load in the order 1, 2, 10,
both in the frame store and in the order the files are opened), and a
single entry whose stem does not parse as a number makes the load raise
`ValueError` during the sort, before any mesh file is handed to
`pv.read`. -/
theorem load_sorts_numerically_and_fails_before_read
    (entries : List DirEntry) (s : AppState) (e : DirEntry)
    (he : e ∈ entries) (hbad : parsePyFloat (splitextStem e.1) = none)
    (hv : s.v2h = false) :
    ((openLoadDir entries s).err = some PyError.valueError ∧
     (openLoadDir entries s).opened = []) ∧
    ((openLoadDir [("10.msh", some meshB), ("1.msh", some meshB), ("2.msh", some meshB)]
        initState).state.meshes.map Prod.fst = ["1.msh", "2.msh", "10.msh"] ∧
     (openLoadDir [("10.msh", some meshB), ("1.msh", some meshB), ("2.msh", some meshB)]
        initState).opened = ["1.msh", "2.msh", "10.msh"]) := by
  constructor
  · have hse : sortEntries entries = none := by
      unfold sortEntries
      rw [computeKeys_eq_none he hbad]
    simp [openLoadDir, hv, loadPhase, hse]
  · exact ⟨by decide, by decide⟩

/-- C10 witness: the sort theorem applied to the concrete directory
containing the single non-numeric entry `abc.msh`, from the initial
state. -/
theorem load_sorts_numerically_and_fails_before_read_witness :
    (("abc.msh", (some meshB : Option Mesh)) ∈ [("abc.msh", some meshB)] ∧
     parsePyFloat (splitextStem "abc.msh") = none ∧
     initState.v2h = false) ∧
    (((openLoadDir [("abc.msh", some meshB)] initState).err = some PyError.valueError ∧
      (openLoadDir [("abc.msh", some meshB)] initState).opened = []) ∧
     ((openLoadDir [("10.msh", some meshB), ("1.msh", some meshB), ("2.msh", some meshB)]
         initState).state.meshes.map Prod.fst = ["1.msh", "2.msh", "10.msh"] ∧
      (openLoadDir [("10.msh", some meshB), ("1.msh", some meshB), ("2.msh", some meshB)]
         initState).opened = ["1.msh", "2.msh", "10.msh"])) :=
  ⟨⟨by decide, by decide, rfl⟩,
    load_sorts_numerically_and_fails_before_read [("abc.msh", some meshB)] initState
      ("abc.msh", some meshB) (by decide) (by decide) rfl⟩

end SVT
